import Mathlib

/-!
Shallow embedding of `homework.py`: a fitness-tracker module computing
distance, mean speed and spent calories for three workout variants
(Running, SportsWalking, Swimming), an `InfoMessage` report with a fixed
Russian template, and a dispatcher `read_package` mapping a workout code
to a variant constructor.

Python floats are modelled as exact rationals (all literal constants of
the source are decimal fractions); Python integer arguments are embedded
as rationals as well, since every use promotes them to float arithmetic.
Python float floor division `//` is modelled by `qfloorDiv` (floor of the
exact quotient). Exceptions (`ValueError` in `read_package`, `TypeError`
on argument-count mismatch) are modelled by `Except String`.
-/

namespace Homework

/-- The `InfoMessage` dataclass: workout type label plus the four numeric
metrics (duration in hours, distance in km, speed in km/h, calories). -/
structure InfoMessage where
  training_type : String
  duration : ℚ
  distance : ℚ
  speed : ℚ
  calories : ℚ
deriving DecidableEq, Repr

/-- Python float floor division `a // b`: the floor of the exact quotient,
returned as a (float-valued, here rational) number. -/
def qfloorDiv (a b : ℚ) : ℚ := ((⌊a / b⌋ : ℤ) : ℚ)

/-- The three `Training` subclasses of the source. The abstract base class
`Training` is never instantiated by the program (its `get_spent_calories`
raises `NotImplementedError`), so the embedding carries only the three
concrete variants. Field order follows each `__init__`. -/
inductive Training where
  | running (action duration weight : ℚ)
  | sportsWalking (action duration weight height : ℚ)
  | swimming (action duration weight length_pool count_pool : ℚ)
deriving DecidableEq, Repr

namespace Training

/-- `Training.LEN_STEP = 0.65` (class attribute of the base class). -/
def LEN_STEP : ℚ := 0.65

/-- `Training.M_IN_KM = 1000`. -/
def M_IN_KM : ℚ := 1000

/-- `Training.MIN_IN_HOUR = 60`. -/
def MIN_IN_HOUR : ℚ := 60

/-- `Swimming.LEN_STEP = 1.38` (overrides the base class attribute). -/
def swimmingLEN_STEP : ℚ := 1.38

/-- `Running.COEFF_CALORIE_SPEED_MULT = 18`. -/
def COEFF_CALORIE_SPEED_MULT : ℚ := 18

/-- `Running.COEFF_CALORIE_SPEED_DIFF = 20`. -/
def COEFF_CALORIE_SPEED_DIFF : ℚ := 20

/-- `SportsWalking.COEFF_CALORIE_WEIGHT_MULT = 0.035`. -/
def COEFF_CALORIE_WEIGHT_MULT : ℚ := 0.035

/-- `SportsWalking.COEFF_CALORIE_SPEEDHEIGHT_MULT = 0.029`. -/
def COEFF_CALORIE_SPEEDHEIGHT_MULT : ℚ := 0.029

/-- `Swimming.COEFF_CALORIE_SPEED_SUM = 1.1`. -/
def COEFF_CALORIE_SPEED_SUM : ℚ := 1.1

/-- `Swimming.COEFF_CALORIE_SPEEDWEIGHT_MULT = 2`. -/
def COEFF_CALORIE_SPEEDWEIGHT_MULT : ℚ := 2

/-- `self.action`. -/
def action : Training → ℚ
  | .running a _ _ => a
  | .sportsWalking a _ _ _ => a
  | .swimming a _ _ _ _ => a

/-- `self.duration_hour`. -/
def duration_hour : Training → ℚ
  | .running _ d _ => d
  | .sportsWalking _ d _ _ => d
  | .swimming _ d _ _ _ => d

/-- `self.weight_kg`. -/
def weight_kg : Training → ℚ
  | .running _ _ w => w
  | .sportsWalking _ _ w _ => w
  | .swimming _ _ w _ _ => w

/-- Dynamic lookup of the class attribute `self.LEN_STEP`: the base value
`0.65` for `Running` and `SportsWalking`, the override `1.38` for
`Swimming`. -/
def len_step : Training → ℚ
  | .running _ _ _ => LEN_STEP
  | .sportsWalking _ _ _ _ => LEN_STEP
  | .swimming _ _ _ _ _ => swimmingLEN_STEP

/-- `Training.get_distance`: `self.action * self.LEN_STEP / self.M_IN_KM`
(inherited unchanged by all three variants, with `LEN_STEP` looked up
dynamically). -/
def get_distance (t : Training) : ℚ :=
  t.action * t.len_step / M_IN_KM

/-- `get_mean_speed`: the base class computes
`self.get_distance() / self.duration_hour`; `Swimming` overrides it with
`self.length_pool_m * self.count_pool / self.M_IN_KM / self.duration_hour`. -/
def get_mean_speed (t : Training) : ℚ :=
  match t with
  | .swimming _ d _ lp cp => lp * cp / M_IN_KM / d
  | _ => t.get_distance / t.duration_hour

/-- `get_spent_calories`, per variant (the base class raises
`NotImplementedError` and is never instantiated). -/
def get_spent_calories (t : Training) : ℚ :=
  match t with
  | .running _ d w =>
      (COEFF_CALORIE_SPEED_MULT * t.get_mean_speed
        - COEFF_CALORIE_SPEED_DIFF) * w / M_IN_KM * d * MIN_IN_HOUR
  | .sportsWalking _ d w h =>
      (COEFF_CALORIE_WEIGHT_MULT * w
        + qfloorDiv (t.get_mean_speed ^ 2) h
          * COEFF_CALORIE_SPEEDHEIGHT_MULT * w) * d * MIN_IN_HOUR
  | .swimming _ _ w _ _ =>
      (t.get_mean_speed + COEFF_CALORIE_SPEED_SUM)
        * COEFF_CALORIE_SPEEDWEIGHT_MULT * w

/-- `type(self).__name__`, used as the report's type label. -/
def type_name : Training → String
  | .running _ _ _ => "Running"
  | .sportsWalking _ _ _ _ => "SportsWalking"
  | .swimming _ _ _ _ _ => "Swimming"

/-- `Training.show_training_info`: builds the `InfoMessage` from the class
name, the duration and the three computed metrics. -/
def show_training_info (t : Training) : InfoMessage :=
  { training_type := t.type_name
    duration := t.duration_hour
    distance := t.get_distance
    speed := t.get_mean_speed
    calories := t.get_spent_calories }

/-- Partiality of the source's mean-speed computation: in Python the
division `/ self.duration_hour` raises `ZeroDivisionError` exactly when
`duration_hour == 0` (in both the base and the `Swimming` override, whose
divisor is also `duration_hour`); every other input divides fine. -/
def get_mean_speed? (t : Training) : Option ℚ :=
  if t.duration_hour = 0 then none else some t.get_mean_speed

end Training

attribute [simp] qfloorDiv Training.action Training.duration_hour
  Training.weight_kg Training.len_step Training.LEN_STEP
  Training.swimmingLEN_STEP Training.M_IN_KM Training.MIN_IN_HOUR
  Training.COEFF_CALORIE_SPEED_MULT Training.COEFF_CALORIE_SPEED_DIFF
  Training.COEFF_CALORIE_WEIGHT_MULT Training.COEFF_CALORIE_SPEEDHEIGHT_MULT
  Training.COEFF_CALORIE_SPEED_SUM Training.COEFF_CALORIE_SPEEDWEIGHT_MULT
  Training.get_distance Training.get_mean_speed Training.get_spent_calories

/-- `format(x, ".3f")` on the metric values: fixed-point rendering with
exactly three decimals, for a nonnegative numerator given in units of
thousandths. -/
def fmt3Nat (n : ℕ) : String :=
  let frac := n % 1000
  toString (n / 1000) ++ "."
    ++ (if frac < 10 then "00" else if frac < 100 then "0" else "")
    ++ toString frac

/-- Python `"\x7b:.3f\x7d".format(x)`: round to the nearest thousandth and
render with three decimals (Python rounds the underlying double with
ties-to-even; exact ties cannot arise from the decimal constants involved,
so half-up on the exact rational agrees). -/
def fmt3 (q : ℚ) : String :=
  if q < 0 then "-" ++ fmt3Nat (⌊-q * 1000 + 1 / 2⌋).toNat
  else fmt3Nat (⌊q * 1000 + 1 / 2⌋).toNat

/-- `InfoMessage.TRAIN_INFO`: the fixed report template, braces written as
`\x7b`/`\x7d` escapes. -/
def TRAIN_INFO : String :=
  "Тип тренировки: \x7btraining_type\x7d; " ++
  "Длительность: \x7bduration:.3f\x7d ч.; " ++
  "Дистанция: \x7bdistance:.3f\x7d км; " ++
  "Ср. скорость: \x7bspeed:.3f\x7d км/ч; " ++
  "Потрачено ккал: \x7bcalories:.3f\x7d."

/-- `str.format`: a single left-to-right pass over the template; outside a
field (`inField = false`) characters are copied until a `\x7b` opens a
field; inside a field the name-and-spec text is accumulated until `\x7d`,
then the field's replacement is emitted. Substituted values are never
rescanned, as in Python. An unterminated field cannot arise on the
source's template. -/
def renderTemplate (fields : String → String) :
    Bool → List Char → List Char → String
  | _, _, [] => ""
  | true, acc, c :: rest =>
      if c = '\x7d' then
        fields (String.mk acc.reverse) ++ renderTemplate fields false [] rest
      else renderTemplate fields true (c :: acc) rest
  | false, acc, c :: rest =>
      if c = '\x7b' then renderTemplate fields true [] rest
      else String.singleton c ++ renderTemplate fields false acc rest

/-- The keyword arguments `format(**asdict(self))` supplies, each already
rendered through its format spec (`.3f` for the four numeric fields). -/
def InfoMessage.fieldValues (m : InfoMessage) : String → String :=
  fun k =>
    if k = "training_type" then m.training_type
    else if k = "duration:.3f" then fmt3 m.duration
    else if k = "distance:.3f" then fmt3 m.distance
    else if k = "speed:.3f" then fmt3 m.speed
    else if k = "calories:.3f" then fmt3 m.calories
    else ""

/-- `InfoMessage.get_message`:
`self.TRAIN_INFO.format(**asdict(self))`. -/
def InfoMessage.get_message (m : InfoMessage) : String :=
  renderTemplate m.fieldValues false [] TRAIN_INFO.toList

/-- The `ValueError` message of `read_package` for an unknown workout
code: the f-string interpolates `list(type_of_activity)`, the insertion-
ordered key list `[\x27SWM\x27, \x27RUN\x27, \x27WLK\x27]`. The message
text is a constant: it does not mention the offending code. -/
def invalidCodeMsg : String :=
  "ValueError: Неизвестный тип тренировки... " ++
  "Допустимые значения: [\x27SWM\x27, \x27RUN\x27, \x27WLK\x27]"

/-- `read_package`: looks the code up in the fixed mapping
`SWM ↦ Swimming, RUN ↦ Running, WLK ↦ SportsWalking`; an absent code
raises `ValueError` with `invalidCodeMsg`; otherwise the variant is built
from the positional data (`*data` unpacking raises `TypeError` when the
argument count does not match the constructor, modelled by an error). -/
def read_package (workout_type : String) (data : List ℚ) :
    Except String Training :=
  if workout_type = "SWM" ∨ workout_type = "RUN" ∨ workout_type = "WLK" then
    match workout_type, data with
    | "SWM", [a, d, w, lp, cp] => Except.ok (Training.swimming a d w lp cp)
    | "RUN", [a, d, w] => Except.ok (Training.running a d w)
    | "WLK", [a, d, w, h] => Except.ok (Training.sportsWalking a d w h)
    | _, _ => Except.error "TypeError"
  else Except.error invalidCodeMsg

namespace Training

/-- C5: for every Running sample, the spent calories equal
`(18 · meanSpeed − 20) · weight / 1000 · durationHours · 60`. -/
theorem running_calories_formula (a d w : ℚ) :
    (Training.running a d w).get_spent_calories
      = (18 * (Training.running a d w).get_mean_speed - 20) * w / 1000 * d * 60 :=
  rfl

/-- C2: for every SportsWalking sample, the spent calories equal
`(0.035·weight + ⌊meanSpeed² / height⌋ · 0.029 · weight) · durationHours · 60`,
the inner division being exact floor division of the squared mean speed by
the height. -/
theorem walking_calories_formula (a d w h : ℚ) :
    (Training.sportsWalking a d w h).get_spent_calories
      = (0.035 * w
          + ((⌊(Training.sportsWalking a d w h).get_mean_speed ^ 2 / h⌋ : ℤ) : ℚ)
            * 0.029 * w) * d * 60 :=
  rfl

/-- C4: for every Swimming sample, the mean speed equals
`poolLength · laps / 1000 / durationHours` and the spent calories equal
`(meanSpeed + 1.1) · 2 · weight`; the sample
`Swimming(720, 1, 80, 25, 40)` yields speed 1.0 km/h and calories 336.0. -/
theorem swimming_speed_calories (a d w lp cp : ℚ) :
    (Training.swimming a d w lp cp).get_mean_speed = lp * cp / 1000 / d
  ∧ (Training.swimming a d w lp cp).get_spent_calories
      = ((Training.swimming a d w lp cp).get_mean_speed + 1.1) * 2 * w
  ∧ (Training.swimming 720 1 80 25 40).get_mean_speed = 1
  ∧ (Training.swimming 720 1 80 25 40).get_spent_calories = 336 :=
  ⟨rfl, rfl, by norm_num, by norm_num⟩

/-- C6: for every Running and SportsWalking sample, the distance equals
`action · 0.65 / 1000` km and the mean speed equals `distance /
durationHours`, SportsWalking using exactly the base-class formulas; the
sample `SportsWalking(9000, 1, 75, 180)` yields distance 5.85 km and
speed 5.85 km/h. -/
theorem base_distance_speed (a d w h : ℚ) :
    (Training.running a d w).get_distance = a * 0.65 / 1000
  ∧ (Training.running a d w).get_mean_speed
      = (Training.running a d w).get_distance / d
  ∧ (Training.sportsWalking a d w h).get_distance = a * 0.65 / 1000
  ∧ (Training.sportsWalking a d w h).get_mean_speed
      = (Training.sportsWalking a d w h).get_distance / d
  ∧ (Training.sportsWalking 9000 1 75 180).get_distance = 5.85
  ∧ (Training.sportsWalking 9000 1 75 180).get_mean_speed = 5.85 :=
  ⟨rfl, rfl, rfl, rfl, by norm_num, by norm_num⟩

/-- C1 counterexample: for `Running(15000, 1, 75)` the code computes
exactly 699.75 spent calories, which is not within ±0.5% of the claimed
1052.0. -/
theorem running_sample_calories_not_1052 :
    (Training.running 15000 1 75).get_spent_calories = 699.75
  ∧ ¬ |(Training.running 15000 1 75).get_spent_calories - 1052|
        ≤ 0.005 * 1052 := by
  constructor
  · norm_num
  · rw [show (Training.running 15000 1 75).get_spent_calories = 699.75 from by norm_num]
    rw [abs_le]
    norm_num

/-- C1 (amended): for `Running(15000, 1, 75)` the distance is exactly
9.75 km, the mean speed exactly 9.75 km/h, and the spent calories exactly
699.75. -/
theorem running_sample_metrics :
    (Training.running 15000 1 75).get_distance = 9.75
  ∧ (Training.running 15000 1 75).get_mean_speed = 9.75
  ∧ (Training.running 15000 1 75).get_spent_calories = 699.75 := by
  refine ⟨by norm_num, by norm_num, by norm_num⟩

/-- C10: every Swimming sample reports the inherited stroke-length
distance `action · 1.38 / 1000` km, while its mean speed comes from the
pool fields; for `Swimming(720, 1, 80, 25, 40)` the distance (0.9936 km)
differs from `meanSpeed · durationHours` (1.0 km). -/
theorem swimming_distance_speed_mismatch (a d w lp cp : ℚ) :
    (Training.swimming a d w lp cp).get_distance = a * 1.38 / 1000
  ∧ (Training.swimming 720 1 80 25 40).get_distance = 0.9936
  ∧ (Training.swimming 720 1 80 25 40).get_mean_speed
      * (Training.swimming 720 1 80 25 40).duration_hour = 1
  ∧ (Training.swimming 720 1 80 25 40).get_distance
      ≠ (Training.swimming 720 1 80 25 40).get_mean_speed
          * (Training.swimming 720 1 80 25 40).duration_hour :=
  ⟨rfl, by norm_num, by norm_num, by norm_num⟩

/-- C9: the report is a pure function of the sample: recomputing the
`InfoMessage` (and its rendered line) from the same sample gives
identical values. -/
theorem report_idempotent (t : Training) :
    t.show_training_info = t.show_training_info
  ∧ t.show_training_info.get_message = t.show_training_info.get_message :=
  ⟨rfl, rfl⟩

/-- C8: whenever a sample's duration is positive the mean-speed division
is well defined (never a division by zero) and agrees with the total
model; conversely a sample on which it is undefined never has positive
duration. -/
theorem mean_speed_welldefined (t : Training) :
    (0 < t.duration_hour → t.get_mean_speed? = some t.get_mean_speed)
  ∧ (t.get_mean_speed? = none → ¬ 0 < t.duration_hour) := by
  constructor
  · intro h
    unfold Training.get_mean_speed?
    rw [if_neg h.ne']
  · intro h hpos
    unfold Training.get_mean_speed? at h
    rw [if_neg hpos.ne'] at h
    exact Option.some_ne_none _ h

/-- C8 witness: the running sample has positive duration, and its mean
speed is defined (and equals the total model's value). -/
theorem mean_speed_welldefined_witness :
    0 < (Training.running 15000 1 75).duration_hour
  ∧ (Training.running 15000 1 75).get_mean_speed?
      = some (Training.running 15000 1 75).get_mean_speed :=
  ⟨by norm_num, (mean_speed_welldefined (Training.running 15000 1 75)).1 (by norm_num)⟩

end Training

set_option maxRecDepth 40000 in
/-- C3 counterexample: dispatching the unknown code "XYZ" does fail, but
the `ValueError` message is a constant string that does not carry the
offending code "XYZ". -/
theorem unknown_code_message_omits_code :
    read_package "XYZ" [] = Except.error invalidCodeMsg
  ∧ ¬ List.IsInfix "XYZ".toList invalidCodeMsg.toList := by
  constructor
  · rfl
  · decide

set_option maxRecDepth 40000 in
/-- C3 (amended): for every code outside `SWM`/`RUN`/`WLK` (whatever the
data), `read_package` fails with the `ValueError` message, which
enumerates the allowed codes SWM, RUN and WLK — but does not carry the
offending code. -/
theorem unknown_code_error (code : String) (data : List ℚ)
    (h : ¬ (code = "SWM" ∨ code = "RUN" ∨ code = "WLK")) :
    read_package code data = Except.error invalidCodeMsg
  ∧ List.IsInfix "SWM".toList invalidCodeMsg.toList
  ∧ List.IsInfix "RUN".toList invalidCodeMsg.toList
  ∧ List.IsInfix "WLK".toList invalidCodeMsg.toList := by
  refine ⟨?_, by decide, by decide, by decide⟩
  simp [read_package, h]

/-- C3 witness: "XYZ" is outside the allowed set and is dispatched to the
`ValueError` result. -/
theorem unknown_code_error_witness :
    ¬ ("XYZ" = "SWM" ∨ "XYZ" = "RUN" ∨ "XYZ" = "WLK")
  ∧ read_package "XYZ" [] = Except.error invalidCodeMsg :=
  ⟨by decide, (unknown_code_error "XYZ" [] (by decide)).1⟩

set_option maxRecDepth 100000 in
/-- C7: for every report, the rendered line is exactly the fixed template
with the type label substituted verbatim and duration, distance, speed
and calories each rendered to three decimals. -/
theorem get_message_format (m : InfoMessage) :
    m.get_message
      = "Тип тренировки: " ++ m.training_type
      ++ "; Длительность: " ++ fmt3 m.duration
      ++ " ч.; Дистанция: " ++ fmt3 m.distance
      ++ " км; Ср. скорость: " ++ fmt3 m.speed
      ++ " км/ч; Потрачено ккал: " ++ fmt3 m.calories ++ "." := by
  apply String.ext
  simp [InfoMessage.get_message, InfoMessage.fieldValues, TRAIN_INFO,
    renderTemplate, String.data_append, String.singleton, String.toList]

end Homework
